import Mathlib

/-!
Verification development for the `tech_comp` repository: shallow embeddings of
the text-scoring services (`dual_use_analyzer.py`, `data_analyzer.py`,
`data_fetcher.py`, `news_classifier.py`, `fast_verifier.py`,
`enhanced_analyzer_v2.py`) and of the sqlite-backed store (`db.py`),
together with theorems settling the behavioural claims about them.

Python strings are modelled as Lean `String`s, with the character-level
operations (substring search, counting, splitting, lower-casing) implemented
over `List Char` so that every definition is executable and kernel-reducible.
Python `float` arithmetic over the small decimal constants used by the code is
modelled exactly over `ℚ`.
-/

namespace Pylib

/-- Substring search over character lists: `containsSub hay needle = true`
iff `needle` occurs contiguously in `hay`.  Models Python's `needle in hay`
(so the empty needle is always contained). -/
def containsSub : List Char → List Char → Bool
  | hay, needle =>
    match hay with
    | [] => needle.isEmpty
    | _ :: t => needle.isPrefixOf hay || containsSub t needle

/-- `strContains hay needle` models Python `needle in hay` on strings. -/
def strContains (hay needle : String) : Bool :=
  containsSub hay.data needle.data

/-- Non-overlapping occurrence count, models Python `hay.count(needle)`:
the empty needle counts `len(hay) + 1` times, otherwise matches are consumed
left to right.  The `fuel` argument (instantiated with the haystack length,
an upper bound on the number of steps) only makes the recursion structural. -/
def countOccAux (needle : List Char) : Nat → List Char → Nat
  | 0, _ => 0
  | _, [] => 0
  | fuel + 1, c :: t =>
    if needle.isPrefixOf (c :: t) then
      1 + countOccAux needle fuel (t.drop (needle.length - 1))
    else
      countOccAux needle fuel t

def countOcc (hay needle : String) : Nat :=
  if needle.data.isEmpty then hay.data.length + 1
  else countOccAux needle.data hay.data.length hay.data

/-- Python `str.lower()` (ASCII-adequate for the keyword tables in this
repository). -/
def lower (s : String) : String :=
  String.mk (s.data.map Char.toLower)

/-- Python word characters for the `\w` / `\b` regex classes (ASCII range). -/
def isWordChar (c : Char) : Bool :=
  c.isAlphanum || c = '_'

/-- Splitting on maximal runs of delimiter characters, models
`re.split(r'[.!?]+', s)` (and keeps the empty pieces that `re.split`
produces at the ends). -/
def splitRunsAux (p : Char → Bool) : Nat → List Char → List Char → List (List Char)
  | _, cur, [] => [cur.reverse]
  | 0, cur, _ => [cur.reverse]
  | fuel + 1, cur, c :: t =>
    if p c then cur.reverse :: splitRunsAux p fuel [] (t.dropWhile p)
    else splitRunsAux p fuel (c :: cur) t

def splitRuns (p : Char → Bool) (s : String) : List String :=
  (splitRunsAux p s.data.length [] s.data).map String.mk

/-- Sentence splitting used throughout the repository:
`re.split(r'[.!?]+', text)`. -/
def sentencesOf (s : String) : List String :=
  splitRuns (fun c => c = '.' || c = '!' || c = '?') s

/-- Python `str.split()` with no argument: split on whitespace runs and drop
empty pieces. -/
def splitWs (s : String) : List String :=
  (splitRuns (fun c => c.isWhitespace) s).filter (fun w => ¬ w.data.isEmpty)

/-- Python `str.strip()`. -/
def pyStrip (s : String) : String :=
  String.mk (((s.data.dropWhile Char.isWhitespace).reverse.dropWhile Char.isWhitespace).reverse)

/-- Python slicing `s[:n]`. -/
def strTake (s : String) (n : Nat) : String :=
  String.mk (s.data.take n)

/-- All matches of the regex `\b(20\d{2})\b` over a string, left to right and
non-overlapping, as `re.findall` returns them.  `prev` is the character just
before the current position (`none` at the start of the string). -/
def findYearsAux : Nat → Option Char → List Char → List Nat
  | 0, _, _ => []
  | fuel + 1, prev, l =>
    match l with
    | c1 :: c2 :: c3 :: c4 :: rest =>
      if (c1 == '2' && c2 == '0' && c3.isDigit && c4.isDigit &&
          (match prev with | none => true | some p => !isWordChar p) &&
          (match rest with | [] => true | r :: _ => !isWordChar r)) then
        (2000 + (c3.toNat - '0'.toNat) * 10 + (c4.toNat - '0'.toNat)) ::
          findYearsAux fuel (some c4) rest
      else
        findYearsAux fuel (some c1) (c2 :: c3 :: c4 :: rest)
    | c :: t => findYearsAux fuel (some c) t
    | [] => []

def findYears (s : String) : List Nat :=
  findYearsAux s.data.length none s.data

/-- Stable insertion of `x` after all already-placed elements `y` with
`le y x`. -/
def stableIns (le : α → α → Bool) (x : α) : List α → List α
  | [] => [x]
  | y :: ys => if le y x then y :: stableIns le x ys else x :: y :: ys

/-- Stable sort (insertion sort), models Python's stable `sorted` /
`list.sort`. -/
def stableSort (le : α → α → Bool) : List α → List α
  | [] => []
  | x :: xs => stableIns le x (stableSort le xs)

/-- Round-half-even on `ℚ`, the rounding Python's `round` applies (the float
representation error of the tiny decimal values handled here is elided). -/
def roundHalfEven (q : ℚ) : ℤ :=
  let f : ℤ := ⌊q⌋
  let r : ℚ := q - f
  if r < 1/2 then f
  else if 1/2 < r then f + 1
  else if f % 2 = 0 then f else f + 1

/-- Python `round(q, 3)`. -/
def round3 (q : ℚ) : ℚ := (roundHalfEven (q * 1000) : ℚ) / 1000

/-- Python `round(q, 2)`. -/
def round2 (q : ℚ) : ℚ := (roundHalfEven (q * 100) : ℚ) / 100

/-- Decimal rendering of a non-negative integer (`str(n)`). -/
def natStr (n : Nat) : String := toString n

/-- Python `f"{q:.1f}"` for non-negative `q` (used only inside report prose). -/
def fmt1 (q : ℚ) : String :=
  let t : Nat := (roundHalfEven (q * 10)).toNat
  natStr (t / 10) ++ "." ++ natStr (t % 10)

/-- Python `sep.join(xs)`. -/
def joinSep (sep : String) : List String → String
  | [] => ""
  | [x] => x
  | x :: xs => x ++ sep ++ joinSep sep xs

end Pylib

/-!
## `backend/app/services/dual_use_analyzer.py` — class `DualUseAnalyzer`

The analysis result is a Python dict whose key set differs between the two
return branches of `analyze_dual_use`; it is modelled as an association list
`List (String × DUVal)` in construction order.  `datetime.now().year` is
modelled as an explicit `currentYear` argument.
-/

namespace DualUse

structure CategoryInfo where
  keywords : List String
  military_indic : List String
  safe_limit : String
  category : String
deriving DecidableEq

/-- The in-memory Wassenaar table `self.wassenaar_categories` (insertion
order preserved).  The Python key `military_indicators` is the
`military_indic` field. -/
def wassenaar_categories : List (String × CategoryInfo) :=
  [ ("AI_ML",
     { keywords := ["artificial intelligence", "machine learning", "neural network", "deep learning"]
       military_indic := ["autonomous weapons", "target recognition", "military ai", "defense ai"]
       safe_limit := "civilian research only"
       category := "Category 4 - Computers" }),
    ("QUANTUM",
     { keywords := ["quantum computing", "quantum cryptography", "quantum communication"]
       military_indic := ["quantum encryption", "military quantum", "secure communications"]
       safe_limit := "research and civilian communications"
       category := "Category 5 Part 2 - Information Security" }),
    ("ROBOTICS",
     { keywords := ["robotics", "autonomous systems", "drones", "uav"]
       military_indic := ["military drone", "combat robot", "autonomous weapon", "lethal autonomous"]
       safe_limit := "industrial and civilian use only"
       category := "Category 2 - Materials Processing" }),
    ("CYBER",
     { keywords := ["cybersecurity", "intrusion software", "network surveillance"]
       military_indic := ["cyber warfare", "offensive cyber", "cyber weapon"]
       safe_limit := "defensive cybersecurity only"
       category := "Category 5 Part 2 - Information Security" }),
    ("BIOTECH",
     { keywords := ["biotechnology", "genetic engineering", "crispr", "gene editing"]
       military_indic := ["biological weapon", "bioweapon", "military biological"]
       safe_limit := "medical and agricultural research only"
       category := "Category 1 - Materials, Chemicals, Microorganisms & Toxins" }),
    ("SPACE",
     { keywords := ["satellite", "space technology", "rocket", "launch vehicle"]
       military_indic := ["military satellite", "spy satellite", "reconnaissance satellite", "anti-satellite"]
       safe_limit := "civilian space exploration and communications"
       category := "Category 9 - Aerospace and Propulsion" }),
    ("TELECOM",
     { keywords := ["5g", "telecommunications", "network infrastructure"]
       military_indic := ["military communications", "secure military network"]
       safe_limit := "civilian communications infrastructure"
       category := "Category 5 Part 1 - Telecommunications" }),
    ("ENERGY",
     { keywords := ["nuclear energy", "fusion", "advanced reactors"]
       military_indic := ["nuclear weapon", "weapons-grade", "enrichment"]
       safe_limit := "civilian power generation only"
       category := "Category 0 - Nuclear Materials" }) ]

/-- `self.risk_levels`. -/
def risk_levels : List (String × String) :=
  [ ("LOW", "Within safe limits - primarily civilian applications"),
    ("MODERATE", "Some dual-use concerns - requires monitoring"),
    ("HIGH", "Significant military applications detected"),
    ("CRITICAL", "Potential weapons development or prohibited activities") ]

/-- One entry of the `military_indicators` result list built by
`_find_military_indicators`. -/
structure MilIndicator where
  indicator : String
  context : String
  severity : String
deriving DecidableEq

/-- One entry of the `developments` list built by `_extract_developments`. -/
structure Development where
  year : Nat
  description : String
  relevance : String
deriving DecidableEq

/-- Values occurring in the result dict of `analyze_dual_use`. -/
inductive DUVal where
  | s (v : String)
  | sl (v : List String)
  | il (v : List MilIndicator)
  | dl (v : List Development)
  | b (v : Bool)
deriving DecidableEq

/-- The `data` argument; `data.get("raw_text", [])` is the `raw_text`
field (the missing-key default `[]` is the field's default value). -/
structure AnalysisData where
  raw_text : List String := []

/-- `_identify_wassenaar_category`: first category whose keyword list has a
member contained in the lower-cased domain. -/
def _identify_wassenaar_category (domain : String) : Option CategoryInfo :=
  let domain_lower := Pylib.lower domain
  (wassenaar_categories.find? fun ci =>
    ci.2.keywords.any fun kw => Pylib.strContains domain_lower kw).map (·.2)

/-- `_find_military_indicators`.  For each indicator present in the text the
source collects up to three regex matches of the indicator with up to 100
characters of context on each side (`re.findall`, non-overlapping); the
number of entries appended is the number of such matches capped at 3, here
the non-overlapping occurrence count capped at 3, and the `context` string
(±100 characters around the hit, inspected by no caller or claim) is
abstracted to the indicator itself. -/
def _find_military_indicators (text : String) (category : CategoryInfo) : List MilIndicator :=
  (category.military_indic.map fun indicator =>
    if Pylib.strContains text indicator then
      List.replicate (min (Pylib.countOcc text indicator) 3)
        { indicator := indicator
          context := indicator
          severity :=
            if ["weapon", "combat", "warfare"].any (fun w => Pylib.strContains indicator w)
            then "HIGH" else "MODERATE" }
    else []).flatten

def civilian_keywords : List String :=
  [ "research", "university", "academic", "medical", "healthcare",
    "commercial", "consumer", "industrial", "civilian", "peaceful",
    "education", "scientific", "innovation", "startup", "business" ]

/-- `_find_civilian_indicators`; `list(set(indicators))[:10]` is modelled as
first-occurrence deduplication (the filtered list is already duplicate-free)
followed by `take 10`. -/
def _find_civilian_indicators (text : String) : List String :=
  ((civilian_keywords.filter fun kw => Pylib.strContains text kw).dedup).take 10

/-- `_calculate_risk_level`; every indicator record carries a `severity`
field, so `ind.get("severity")` is field access. -/
def _calculate_risk_level (military_indicators : List MilIndicator)
    (civilian_indicators : List String) : String :=
  let mil_count := military_indicators.length
  let civ_count := civilian_indicators.length
  let high_severity := (military_indicators.filter fun ind => ind.severity = "HIGH").length
  if high_severity ≥ 2 then "CRITICAL"
  else if mil_count ≥ 5 ∨ (mil_count ≥ 3 ∧ civ_count < 3) then "HIGH"
  else if mil_count ≥ 2 ∨ (mil_count ≥ 1 ∧ civ_count < 5) then "MODERATE"
  else "LOW"

/-- `_assess_compliance`, returning the `(status, notes)` pair. -/
def _assess_compliance (risk_level : String) (category : CategoryInfo) : String × String :=
  if risk_level = "LOW" then
    ("COMPLIANT", "Development appears within safe limits: " ++ category.safe_limit)
  else if risk_level = "MODERATE" then
    ("MONITORING_REQUIRED", "Some dual-use concerns detected. Continued monitoring recommended.")
  else if risk_level = "HIGH" then
    ("NON_COMPLIANT", "Significant military applications detected. May exceed safe civilian use limits.")
  else
    ("CRITICAL_VIOLATION", "Potential weapons development or prohibited activities detected. Immediate review required.")

/-- `_extract_developments`. -/
def _extract_developments (text country : String) (time_range : Option Nat)
    (currentYear : Nat) : List Development :=
  let min_year : Nat :=
    match time_range with
    | some t => if t = 0 then 2015 else currentYear - t
    | none => 2015
  let developments :=
    ((Pylib.sentencesOf text).map fun sentence =>
      ((Pylib.findYears sentence).filter fun year =>
          min_year ≤ year ∧ year ≤ currentYear).filterMap fun year =>
        if Pylib.strContains (Pylib.lower sentence) (Pylib.lower country) ∧
            sentence.data.length > 50 then
          some { year := year
                 description := Pylib.strTake (Pylib.pyStrip sentence) 300
                 relevance :=
                   if ["launched", "developed", "announced"].any
                       (fun w => Pylib.strContains (Pylib.lower sentence) w)
                   then "high" else "medium" }
        else none).flatten
  (Pylib.stableSort (fun a b => b.year < a.year) developments).take 15

/-- `_generate_recommendations`. -/
def _generate_recommendations (risk_level : String)
    (military_indicators : List MilIndicator) : List String :=
  let recommendations :=
    if risk_level = "CRITICAL" then
      [ "Immediate investigation required into potential weapons development",
        "Review international export control compliance",
        "Engage with relevant authorities for verification" ]
    else if risk_level = "HIGH" then
      [ "Enhanced monitoring of military applications",
        "Verify end-use of exported technologies",
        "Regular compliance audits recommended" ]
    else if risk_level = "MODERATE" then
      [ "Continue routine monitoring",
        "Track developments in military applications",
        "Maintain awareness of dual-use concerns" ]
    else
      [ "Standard monitoring procedures sufficient" ]
  if military_indicators ≠ [] then
    recommendations ++
      ["Investigate " ++ Pylib.natStr military_indicators.length ++ " military application indicators"]
  else recommendations

/-- `_filter_by_time_range`. -/
def _filter_by_time_range (text : String) (start_year end_year : Nat) : String :=
  Pylib.joinSep ". "
    ((Pylib.sentencesOf text).filter fun sentence =>
      (Pylib.findYears sentence).any fun year => start_year ≤ year ∧ year ≤ end_year)

/-- `analyze_dual_use`; `time_range=None` is `none` and Python's falsy test
`if time_range:` makes `some 0` behave like `none`. -/
def analyze_dual_use (country domain : String) (data : AnalysisData)
    (time_range : Option Nat) (currentYear : Nat) : List (String × DUVal) :=
  let combined_text := Pylib.lower (Pylib.joinSep " " data.raw_text)
  let filtered_text :=
    match time_range with
    | some t =>
      if t = 0 then combined_text
      else _filter_by_time_range combined_text (currentYear - t) currentYear
    | none => combined_text
  match _identify_wassenaar_category domain with
  | none =>
    [ ("risk_level", .s "LOW"),
      ("wassenaar_category", .s "Not classified"),
      ("compliance_status", .s "N/A"),
      ("findings", .sl ["Domain not in dual-use categories"]),
      ("military_indicators", .il []),
      ("civilian_indicators", .sl []),
      ("recommendations", .sl ["Continue monitoring general technology development"]) ]
  | some category_match =>
    let military_indicators := _find_military_indicators filtered_text category_match
    let civilian_indicators := _find_civilian_indicators filtered_text
    let risk_level := _calculate_risk_level military_indicators civilian_indicators
    let compliance := _assess_compliance risk_level category_match
    let developments := _extract_developments filtered_text country time_range currentYear
    [ ("risk_level", .s risk_level),
      ("risk_description", .s ((risk_levels.lookup risk_level).getD "")),
      ("wassenaar_category", .s category_match.category),
      ("safe_limit", .s category_match.safe_limit),
      ("compliance_status", .s compliance.1),
      ("compliance_notes", .s compliance.2),
      ("military_indicators", .il military_indicators),
      ("civilian_indicators", .sl civilian_indicators),
      ("developments", .dl developments),
      ("recommendations", .sl (_generate_recommendations risk_level military_indicators)),
      ("monitoring_required", .b (["MODERATE", "HIGH", "CRITICAL"].contains risk_level)) ]

end DualUse

/-!
## `backend/app/services/fast_verifier.py` — class `FactVerifier`

The external `SentenceTransformer` embedding model is opaque to this
repository; it is modelled as a value carrying the row of cosine
similarities that `util.cos_sim(claim_emb, ev_emb)[0]` yields for a claim
against a list of evidence snippets.  The constructor's `try/except` around
model loading is modelled by taking the loading outcome as an
`Except`-valued argument.
-/

namespace FastVerifier

/-- The loaded sentence-embedding model, abstracted to the similarity row it
induces. -/
structure Model where
  simRow : String → List String → List ℚ

structure FactVerifier where
  model : Option Model

/-- `FactVerifier.__init__`: a successful `SentenceTransformer(model_name)`
is stored; any exception is caught, logged and leaves `self.model = None`.
Both outcomes return a constructed object — the constructor never raises. -/
def init (loadResult : Except String Model) : FactVerifier :=
  { model := match loadResult with
             | .ok m => some m
             | .error _ => none }

structure ScoreResult where
  score : ℚ
  ranked_evidence : List (String × ℚ)
deriving DecidableEq

/-- `score_claim_against_evidence`.  With no model it returns the fixed
emptyish result; otherwise it ranks the snippets by similarity (stable
descending sort), keeps ten, and scores with `np.max(sims)` (`0.0` for no
snippets). -/
def score_claim_against_evidence (v : FactVerifier) (claim : String)
    (evidence_snippets : List String) : ScoreResult :=
  match v.model with
  | none => { score := 0, ranked_evidence := [] }
  | some m =>
    let sims := m.simRow claim evidence_snippets
    let ranked := Pylib.stableSort (fun a b => b.2 < a.2) (evidence_snippets.zip sims)
    let score : ℚ := match sims with
                     | [] => 0
                     | s :: rest => rest.foldl max s
    { score := score, ranked_evidence := ranked.take 10 }

end FastVerifier

/-!
## `backend/app/services/news_classifier.py`
-/

namespace NewsClassifier

/-- The module-level `CATEGORIES` table, duplicates included (`"munition"`
twice under `military`, `"export licence"` twice under `export_control`). -/
def CATEGORIES : List (String × List String) :=
  [ ("military",
     [ "military", "weapon", "weaponization", "munition", "defense industry", "armed forces",
       "missile", "drone strike", "combat", "warfare", "militar", "munition", "soldier", "navy", "airforce" ]),
    ("policy",
     [ "policy", "regulation", "regulator", "legislation", "law", "government policy",
       "minister", "parliament", "ban", "sanction", "export control", "guideline", "policy brief" ]),
    ("industry",
     [ "launch", "startup", "company", "commercial", "industry", "investment", "funding",
       "acquisition", "contract", "supplier" ]),
    ("research",
     [ "study", "research", "paper", "evidence", "journal", "university", "laboratory", "preprint",
       "conference", "doi", "arxiv", "crossref", "semantic scholar" ]),
    ("export_control",
     [ "export control", "dual-use", "export licence", "export licence", "Wassenaar", "embargo",
       "export-control", "exportcontrol" ]) ]

/-- Word-ness of an optional character, with out-of-string positions
non-word, as the regex `\b` treats them. -/
def optWord : Option Char → Bool
  | none => false
  | some c => Pylib.isWordChar c

/-- The regex word boundary `\b` between two adjacent (possibly
out-of-string) characters. -/
def bAt (a b : Option Char) : Bool :=
  optWord a != optWord b

/-- `re.search(r"\b" + re.escape(kw) + r"\b", t)` for a non-empty literal
`kw` (every keyword in `CATEGORIES` is non-empty): some occurrence of `kw`
with a word boundary on each side. -/
def boundHitAux (kw : List Char) : Option Char → List Char → Bool
  | prev, c :: cs =>
    (kw.isPrefixOf (c :: cs) && bAt prev (some c) &&
      bAt kw.getLast? ((c :: cs).drop kw.length).head?) ||
    boundHitAux kw (some c) cs
  | _, [] => false

def boundHit (t kw : String) : Bool :=
  !kw.data.isEmpty && boundHitAux kw.data none t.data

/-- `_score_text_for_category`: +2 for a word-boundary match, else +1 for a
plain substring hit.  The keyword is not lower-cased by the source (so the
capitalised `"Wassenaar"` entry can never match the lower-cased text). -/
def _score_text_for_category (text : String) (keywords : List String) : Nat :=
  let t := Pylib.lower text
  keywords.foldl
    (fun score kw =>
      if boundHit t kw then score + 2
      else if Pylib.strContains t kw then score + 1
      else score)
    0

/-- The `article` dict; `article.get(k, "")` is a field with default `""`. -/
structure Article where
  title : String := ""
  abstract : String := ""
  description : String := ""
  content : String := ""

structure ClassifyResult where
  category : String
  scores : List (String × Nat)
  confidence : ℚ

/-- `classify_article`.  `max(scores.items(), key=...)` keeps the first
maximal entry; `sum(scores.values()) or 1` replaces a zero sum by 1;
`round(best/total, 3)` is round-half-even to three decimal places. -/
def classify_article (article : Article) : ClassifyResult :=
  let text := Pylib.joinSep " "
    [article.title, article.abstract, article.description, article.content]
  let scores := CATEGORIES.map fun ck => (ck.1, _score_text_for_category text ck.2)
  let best_cat : String × Nat :=
    match scores with
    | [] => ("", 0)
    | x :: xs => xs.foldl (fun (acc y : String × Nat) => if y.2 > acc.2 then y else acc) x
  let category := if best_cat.2 > 0 then best_cat.1 else "other"
  let total := scores.foldl (fun a s => a + s.2) 0
  let totalOr1 : Nat := if total = 0 then 1 else total
  let confidence := Pylib.round3 ((best_cat.2 : ℚ) / (totalOr1 : ℚ))
  { category := category, scores := scores, confidence := confidence }

/-- The maximal category score of a scores dict ("the best category's
score"), used to state the confidence property. -/
def bestScore (scores : List (String × Nat)) : Nat :=
  (scores.map (·.2)).foldr max 0

/-- The sum of all category scores. -/
def totalScore (scores : List (String × Nat)) : Nat :=
  (scores.map (·.2)).sum

end NewsClassifier

/-!
## `data_fetcher.py` — class `ImprovedDataFetcher`

`_fetch_and_validate_page` performs HTTP I/O and third-party content
extraction before its validation steps; the embedding starts at the point
where the extracted `content` string is in hand (the `content` argument) and
models the remaining pure logic: the minimum-length gate, the relevance
score, and the conditional recording into the `data` dict.
-/

namespace DataFetcher

/-- The `data` dict threaded through the fetcher. -/
structure FetchData where
  raw_text : List String := []
  sources : List String := []
  relevance_scores : List ℚ := []
  fetch_errors : List String := []
deriving DecidableEq

/-- `_get_domain_synonyms`. -/
def _get_domain_synonyms (domain : String) : List String :=
  let synonyms_map : List (String × List String) :=
    [ ("artificial intelligence", ["ai", "machine learning", "deep learning", "neural network"]),
      ("renewable energy", ["solar", "wind", "clean energy", "sustainable energy"]),
      ("robotics", ["robot", "automation", "autonomous"]),
      ("biotechnology", ["biotech", "genetic", "pharmaceutical"]),
      ("quantum computing", ["quantum", "qubit", "quantum computer"]) ]
  let domain_lower := Pylib.lower domain
  match synonyms_map.find? (fun ks => Pylib.strContains domain_lower ks.1) with
  | some ks => ks.2
  | none => []

def evidence_terms : List String :=
  [ "developed", "launched", "invested", "announced", "breakthrough",
    "research", "startup", "company", "university", "institute",
    "billion", "million", "patent", "innovation", "government" ]

def recent_years : List String :=
  ["2020", "2021", "2022", "2023", "2024", "2025"]

/-- `_calculate_relevance_score` (documented 0-10 scale). -/
def _calculate_relevance_score (text country domain : String) : ℚ :=
  let text_lower := Pylib.lower text
  let country_lower := Pylib.lower country
  let domain_lower := Pylib.lower domain
  let country_mentions := Pylib.countOcc text_lower country_lower
  if country_mentions = 0 then 0
  else
    let score₁ : ℚ := min (2 + (country_mentions : ℚ) * (1/10)) 3
    let domain_terms := Pylib.splitWs domain_lower ++ _get_domain_synonyms domain
    let domain_mentions :=
      (domain_terms.map fun term => Pylib.countOcc text_lower (Pylib.lower term)).sum
    let score₂ : ℚ :=
      if domain_mentions > 0 then score₁ + min (2 + (domain_mentions : ℚ) * (1/10)) 3
      else score₁
    let evidence_count :=
      (evidence_terms.filter fun term => Pylib.strContains text_lower term).length
    let score₃ : ℚ := score₂ + min ((evidence_count : ℚ) * (2/10)) 2
    let score₄ : ℚ :=
      if recent_years.any (fun year => Pylib.strContains text year) then score₃ + 1
      else score₃
    if text.data.length < 500 then score₄ * (6/10)
    else if text.data.length < 1000 then score₄ * (8/10)
    else score₄

/-- The validate-and-record tail of `_fetch_and_validate_page`: with the
extracted `content` in hand, give up when it is missing or shorter than 200
characters, otherwise compute the relevance and record content, source and
score exactly when `relevance >= 2.0`. -/
def _fetch_and_validate_record (content url country domain : String)
    (data : FetchData) : FetchData :=
  if content.data.length < 200 then data
  else
    let relevance := _calculate_relevance_score content country domain
    if relevance ≥ 2 then
      { data with
        raw_text := data.raw_text ++ [content]
        sources := data.sources ++ [url]
        relevance_scores := data.relevance_scores ++ [relevance] }
    else data

end DataFetcher

/-!
## `data_analyzer.py` — class `ImprovedDataAnalyzer`

`analyze_and_compare` computes a per-country analysis dict, a comparison
dict and a conclusion string through regex-heavy extractors, then assembles
the report dict and passes it through `_add_quality_assessment`.  The claims
about the report concern only its shape and the quality assessment, which
hold for every value the intermediate extractors can produce; the embedding
therefore takes the two per-country analyses (restricted to the fields the
assembly reads: `summary`, `concrete_metrics`, `key_entities`,
`highlights`), the comparison dict and the conclusion string as universally
quantified arguments, and embeds the assembly (source lines 34-55) and
`_add_quality_assessment` in full.
-/

namespace DataAnalyzer

/-- The `metrics` dict initialised in `_extract_concrete_metrics`. -/
structure ConcreteMetrics where
  funding_amounts : List String := []
  company_valuations : List String := []
  patent_counts : List String := []
  research_output : List String := []
  market_size : List String := []
  growth_rates : List String := []
  investment_deals : List String := []
deriving DecidableEq

instance : Inhabited ConcreteMetrics := ⟨{}⟩

/-- One entry of `_extract_highlights`' result. -/
structure Highlight where
  source : String := "Analysis"
  headline : String := ""
  recent : Bool := false
deriving DecidableEq

/-- The fields of `_analyze_country_data`'s per-country dict that
`analyze_and_compare` reads (the remaining fields — companies,
recent_developments, text_length, source_count, avg_relevance — are not
touched on the report-assembly path). -/
structure CountryAnalysis where
  summary : String
  concrete_metrics : ConcreteMetrics
  key_entities : List String
  highlights : List Highlight

/-- The `data_quality` value added by `_add_quality_assessment`. -/
structure DataQuality where
  warnings : List String
  confidence : String
  sources : List (String × Nat)
  relevance_scores : List (String × ℚ)

/-- Values of the report dict returned by `analyze_and_compare`. -/
inductive RepVal where
  | strDict (v : List (String × String))
  | metricsDict (v : List (String × ConcreteMetrics))
  | comp (v : List (String × String))
  | txt (v : String)
  | entDict (v : List (String × List String))
  | news (v : List Highlight)
  | quality (v : DataQuality)

/-- `_add_quality_assessment`.  `list(result['summary'].keys())[0]` /
`[1]` are the first and second summary keys (present whenever the assembly
inserted two distinct countries; out-of-range access, a Python `IndexError`,
is defaulted and unreachable from `analyze_and_compare` on distinct
countries). -/
def _add_quality_assessment (result : List (String × RepVal))
    (data1 data2 : DataFetcher.FetchData) : List (String × RepVal) :=
  let summaryKeys : List String :=
    match result.lookup "summary" with
    | some (.strDict d) => d.map (·.1)
    | _ => []
  let k0 := summaryKeys.getD 0 ""
  let k1 := summaryKeys.getD 1 ""
  let text1 := (data1.raw_text.map (·.data.length)).sum
  let text2 := (data2.raw_text.map (·.data.length)).sum
  let w1 : List String :=
    if text1 < 3000 then ["Limited data for " ++ k0 ++ " - comparison may be incomplete"] else []
  let w2 : List String :=
    if text2 < 3000 then ["Limited data for " ++ k1 ++ " - comparison may be incomplete"] else []
  let ratio : ℚ := (max text1 text2 : ℚ) / (max (min text1 text2) 1 : ℚ)
  let w3 : List String :=
    if ratio > 2.5 then
      ["Data imbalance detected (" ++ Pylib.fmt1 ratio ++ "x difference) - may affect comparison fairness"]
    else []
  let relevance1 : ℚ := data1.relevance_scores.sum / (max data1.relevance_scores.length 1 : ℚ)
  let relevance2 : ℚ := data2.relevance_scores.sum / (max data2.relevance_scores.length 1 : ℚ)
  let w4 : List String :=
    if relevance1 < 3 ∨ relevance2 < 3 then
      ["Some sources have low relevance scores - findings may be less specific"]
    else []
  let metrics1 : ConcreteMetrics :=
    match result.lookup "concrete_metrics" with
    | some (.metricsDict d) => (d.lookup k0).getD default
    | _ => default
  let metrics2 : ConcreteMetrics :=
    match result.lookup "concrete_metrics" with
    | some (.metricsDict d) => (d.lookup k1).getD default
    | _ => default
  let has_concrete :=
    metrics1.funding_amounts ≠ [] ∨ metrics2.funding_amounts ≠ [] ∨
    metrics1.patent_counts ≠ [] ∨ metrics2.patent_counts ≠ [] ∨
    metrics1.market_size ≠ [] ∨ metrics2.market_size ≠ []
  let w5 : List String :=
    if ¬ has_concrete then
      ["Limited concrete metrics found - analysis relies more on qualitative factors"]
    else []
  let warnings := w1 ++ w2 ++ w3 ++ w4 ++ w5
  let confidence :=
    if warnings = [] then "high"
    else if warnings.length ≤ 2 then "medium"
    else "low"
  result ++
    [("data_quality", .quality
      { warnings := warnings
        confidence := confidence
        sources := [(k0, data1.raw_text.length), (k1, data2.raw_text.length)]
        relevance_scores := [(k0, Pylib.round2 relevance1), (k1, Pylib.round2 relevance2)] })]

/-- The assembly at the end of `analyze_and_compare` followed by
`_add_quality_assessment`, with the intermediate
`analysis1 = _analyze_country_data(country1, domain, country1_data)`,
`analysis2`, `comparison` and `overall` values as arguments. -/
def analyze_and_compare_result (country1 country2 : String)
    (analysis1 analysis2 : CountryAnalysis)
    (comparison : List (String × String)) (overall : String)
    (country1_data country2_data : DataFetcher.FetchData) : List (String × RepVal) :=
  let result : List (String × RepVal) :=
    [ ("summary", .strDict
        [(country1, analysis1.summary), (country2, analysis2.summary)]),
      ("concrete_metrics", .metricsDict
        [(country1, analysis1.concrete_metrics), (country2, analysis2.concrete_metrics)]),
      ("comparison", .comp comparison),
      ("overall_analysis", .txt overall),
      ("resources", .entDict
        [(country1, analysis1.key_entities), (country2, analysis2.key_entities)]),
      ("news", .news (analysis1.highlights ++ analysis2.highlights)) ]
  _add_quality_assessment result country1_data country2_data

end DataAnalyzer

/-!
## `backend/app/db.py`

The sqlite database file is the persistent state; it is modelled as a `DB`
value holding the `items` and `analyses` tables, with each db function
mapping the state before the call to the state after it (and to its return
value).  `json.dumps`/`json.loads` form a bijection on the JSON-serialisable
dicts stored here, so serialisation is modelled as the identity and rows
hold the `Json` value itself.
-/

namespace Db

inductive Json where
  | null
  | bool (b : Bool)
  | num (n : Int)
  | str (s : String)
  | arr (elems : List Json)
  | obj (fields : List (String × Json))

/-- A row of the `items` table (`id` from `AUTOINCREMENT`). -/
structure ItemRow where
  id : Nat
  source : String
  country : String
  domain : String
  year : Option Int
  data_json : Json

/-- The persistent store: the two tables created by `_ensure_db`. -/
structure DB where
  items : List ItemRow := []
  analyses : List (String × Json) := []
  nextId : Nat := 1

def emptyDB : DB := {}

/-- `upsert_item`: `INSERT INTO items (source, country, domain, year,
data_json) VALUES (?, ?, ?, ?, ?)` — appends one row and commits. -/
def upsert_item (source country domain : String) (year : Option Int)
    (data : Json) (db : DB) : DB :=
  { db with
    items := db.items ++
      [{ id := db.nextId, source := source, country := country,
         domain := domain, year := year, data_json := data }]
    nextId := db.nextId + 1 }

/-- `_conn()` never sets a `row_factory`, so the rows
`cur.execute(...).fetchall()` yields are plain tuples; the subscript
`r["data_json"]` in `get_items` therefore raises
`TypeError: tuple indices must be integers or slices, not str`. -/
def tuple_get_by_name (_r : ItemRow) (_key : String) : Except String Json :=
  .error "TypeError: tuple indices must be integers or slices, not str"

/-- `ORDER BY year DESC` (sqlite sorts `NULL` last in descending order). -/
def rowBeforeDesc (a b : ItemRow) : Bool :=
  match a.year, b.year with
  | some x, some y => y < x
  | some _, none => true
  | none, _ => false

/-- `get_items`: select the matching rows (`if year_from:` is Python
truthiness, so `None` and `0` both take the unfiltered query; a `NULL` year
fails the SQL comparison `year>=?`), then loop `d = json.loads(r["data_json"])`
collecting the parsed dicts.  The string subscript on a tuple row raises on
the first row, the `except` logs and returns `[]`. -/
def get_items (country domain : String) (year_from : Option Int) (db : DB) : List Json :=
  let rows := Pylib.stableSort rowBeforeDesc (db.items.filter fun r =>
    r.country == country && r.domain == domain &&
      (match year_from with
       | none => true
       | some y =>
         if y == 0 then true
         else match r.year with
              | some ry => y ≤ ry
              | none => false))
  let attempt : Except String (List Json) :=
    rows.foldlM (fun out r => do
      let d ← tuple_get_by_name r "data_json"
      pure (out ++ [d])) []
  match attempt with
  | .ok out => out
  | .error _ => []

/-- `save_analysis`: `REPLACE INTO analyses (task_id, status_json)` —
deletes any row with the same primary key and inserts the new one. -/
def save_analysis (task_id : String) (status : Json) (db : DB) : DB :=
  { db with
    analyses := db.analyses.filter (fun kv => kv.1 ≠ task_id) ++ [(task_id, status)] }

end Db

/-!
## `backend/app/services/enhanced_analyzer_v2.py`

`WassenarrClassifier`, `TemporalAnalyzer`, the module's own `FactVerifier`
(pure string arithmetic, unrelated to the sentence-embedding verifier in
`fast_verifier.py`) and `EnhancedGeopoliticalAnalyzer`.
`datetime.now().year` is an explicit `currentYear` argument, and the one
unguarded Python division — `high_risk_count / total_categories` in
`_calculate_overall_risk` — is embedded in `Except`, raising
`ZeroDivisionError` exactly when the divisor is zero.
-/

namespace EnhancedV2

structure CatConfig where
  keywords : List String
  risk_indicators : List String

/-- `WassenarrClassifier.CATEGORIES`. -/
def CATEGORIES : List (String × CatConfig) :=
  [ ("ML3",
     { keywords := ["imaging", "camera", "sensor", "optics", "thermal"]
       risk_indicators := ["military grade", "surveillance", "targeting"] }),
    ("ML7",
     { keywords := ["navigation", "gps", "inertial", "guidance", "positioning"]
       risk_indicators := ["missile", "autonomous", "drone", "uav"] }),
    ("ML11",
     { keywords := ["electronics", "semiconductor", "microchip", "processor"]
       risk_indicators := ["radiation hardened", "military spec", "secure"] }),
    ("ML21",
     { keywords := ["software", "algorithm", "ai", "machine learning", "neural"]
       risk_indicators := ["autonomous weapons", "targeting", "reconnaissance"] }),
    ("5A001",
     { keywords := ["telecommunications", "5g", "network", "communication"]
       risk_indicators := ["encrypted", "secure", "military comm"] }),
    ("5D001",
     { keywords := ["cybersecurity", "encryption", "intrusion", "malware"]
       risk_indicators := ["offensive", "exploit", "weapon"] }) ]

/-- One classification dict appended by `WassenarrClassifier.classify`. -/
structure Classification where
  category : String
  confidence : ℚ
  risk_level : String
  risk_score : Nat
  military_indicators : Bool
deriving DecidableEq

/-- `WassenarrClassifier._calculate_risk`. -/
def _calculate_risk (keyword_score risk_score : Nat) : String :=
  if risk_score ≥ 2 then "HIGH"
  else if risk_score = 1 ∨ keyword_score ≥ 3 then "MEDIUM"
  else "LOW"

/-- `WassenarrClassifier.classify`: count keyword and risk-indicator hits
per category, keep categories with a keyword hit, sort by confidence
descending (Python's `sorted` is stable). -/
def classify (text : String) : List Classification :=
  let text_lower := Pylib.lower text
  let classifications := (CATEGORIES.map fun cc =>
    let keyword_matches := (cc.2.keywords.filter fun kw =>
      Pylib.strContains text_lower kw).length
    let risk_matches := (cc.2.risk_indicators.filter fun ri =>
      Pylib.strContains text_lower ri).length
    if keyword_matches > 0 then
      [{ category := cc.1
         confidence := min ((keyword_matches : ℚ) / (cc.2.keywords.length : ℚ)) 1
         risk_level := _calculate_risk keyword_matches risk_matches
         risk_score := risk_matches
         military_indicators := risk_matches > 0 }]
    else []).flatten
  Pylib.stableSort (fun a b => b.confidence < a.confidence) classifications

/-- An element of the `data` lists: `item.get('text', '')` is the `text`
field with default `""`. -/
structure DataItem where
  text : String := ""

/-- `TemporalAnalyzer._extract_year`: `int(years[0]) if years else None`. -/
def _extract_year (d : DataItem) : Option Nat :=
  (Pylib.findYears d.text).head?

/-- `TemporalAnalyzer._count_civilian`. -/
def _count_civilian (data : List DataItem) : Nat :=
  (data.filter fun item =>
    ["medical", "healthcare", "education", "consumer", "commercial"].any fun kw =>
      Pylib.strContains (Pylib.lower item.text) kw).length

/-- `TemporalAnalyzer._count_military`. -/
def _count_military (data : List DataItem) : Nat :=
  (data.filter fun item =>
    ["military", "defense", "weapon", "surveillance", "tactical"].any fun kw =>
      Pylib.strContains (Pylib.lower item.text) kw).length

/-- `TemporalAnalyzer._count_dual_use`. -/
def _count_dual_use (data : List DataItem) : Nat :=
  (data.filter fun item =>
    let t := Pylib.lower item.text
    (["autonomous", "encryption", "drone", "ai", "quantum"].any fun kw =>
      Pylib.strContains t kw) &&
    ((["commercial", "civilian", "consumer"].any fun kw => Pylib.strContains t kw) ||
     (["military", "defense"].any fun kw => Pylib.strContains t kw))).length

/-- `TemporalAnalyzer._count_wassenaar`. -/
def _count_wassenaar (data : List DataItem) : Nat :=
  (data.filter fun item =>
    (classify item.text).any fun c =>
      c.risk_level = "MEDIUM" ∨ c.risk_level = "HIGH").length

/-- `TemporalAnalyzer._extract_key_developments`: first sentence (the
`re.split` result is never empty) of each of the first three items,
truncated to 200 characters. -/
def _extract_key_developments (data : List DataItem) : List String :=
  (data.take 3).map fun item =>
    Pylib.strTake ((Pylib.sentencesOf item.text).headD "") 200

structure YearAnalysis where
  year : Nat
  total_developments : Nat
  civilian_projects : Nat
  military_linked : Nat
  dual_use : Nat
  wassenaar_flags : Nat
  key_developments : List String
deriving DecidableEq

/-- `TemporalAnalyzer.analyze_timeline`:
`range(current_year - years, current_year + 1)`. -/
def analyze_timeline (data : List DataItem) (years : Nat) (currentYear : Nat) :
    List YearAnalysis :=
  (List.range' (currentYear - years) (years + 1)).map fun year =>
    let year_data := data.filter fun d => _extract_year d = some year
    { year := year
      total_developments := year_data.length
      civilian_projects := _count_civilian year_data
      military_linked := _count_military year_data
      dual_use := _count_dual_use year_data
      wassenaar_flags := _count_wassenaar year_data
      key_developments := _extract_key_developments year_data }

/-- `FactVerifier._extract_facts` (enhanced_analyzer_v2 version). -/
def _extract_facts (text : String) : List String :=
  (Pylib.sentencesOf text).filterMap fun sentence =>
    if ["developed", "announced", "launched", "achieved", "demonstrated"].any
        (fun ind => Pylib.strContains (Pylib.lower sentence) ind)
    then some (Pylib.pyStrip sentence) else none

/-- `FactVerifier._calculate_similarity`: Jaccard similarity of the word
sets (`set(text.split())`, modelled as first-occurrence deduplication). -/
def _calculate_similarity (text1 text2 : String) : ℚ :=
  let words1 := (Pylib.splitWs text1).dedup
  let words2 := (Pylib.splitWs text2).dedup
  let inter := (words1.filter fun w => words2.contains w).length
  let uni := (words1 ++ words2.filter fun w => ¬ words1.contains w).length
  if uni = 0 then 0 else (inter : ℚ) / (uni : ℚ)

/-- `FactVerifier._cross_reference`. -/
def _cross_reference (fact : String) (sources : List DataItem) : ℚ :=
  let fact_lower := Pylib.lower fact
  let hits := (sources.filter fun source =>
    _calculate_similarity fact_lower (Pylib.lower source.text) > 0.3).length
  min ((hits : ℚ) / (max sources.length 1 : ℚ)) 1

structure VerificationResult where
  claim : String
  verified : Bool
  confidence : ℚ
  source_count : Nat
  corroborating_sources : Nat
deriving DecidableEq

/-- `FactVerifier.verify_claim` (`self.confidence_threshold = 0.7`). -/
def verify_claim (claim : String) (sources : List DataItem) : VerificationResult :=
  let facts := _extract_facts claim
  let verification_scores := facts.map fun fact => _cross_reference fact sources
  let avg_confidence : ℚ :=
    if verification_scores = [] then 0
    else verification_scores.sum / (verification_scores.length : ℚ)
  { claim := claim
    verified := avg_confidence ≥ 0.7
    confidence := avg_confidence
    source_count := sources.length
    corroborating_sources := (verification_scores.filter fun s => s > 0.5).length }

structure RiskCategory where
  category : String
  risk_level : String
  flagged_count : Nat
  total_count : Nat
deriving DecidableEq

structure RiskProfile where
  categories : List RiskCategory
  overall : String
deriving DecidableEq

/-- The `by_category` dict of `_generate_risk_profile`: insertion-ordered
grouping, appending within a group. -/
def groupByCategory (classifications : List Classification) :
    List (String × List Classification) :=
  classifications.foldl
    (fun acc c =>
      if acc.any fun g => g.1 = c.category then
        acc.map fun g => if g.1 = c.category then (g.1, g.2 ++ [c]) else g
      else acc ++ [(c.category, [c])])
    []

/-- `EnhancedGeopoliticalAnalyzer._generate_risk_profile`.  Every group
produced by `by_category` is non-empty, so `avg_risk`'s divisor
`len(items)` is positive. -/
def _generate_risk_profile (classifications : List Classification) : RiskProfile :=
  if classifications.isEmpty then { categories := [], overall := "LOW" }
  else
    let by_category := groupByCategory classifications
    let categories := by_category.map fun g =>
      let items := g.2
      let avg_risk : ℚ :=
        ((items.filter fun i => i.risk_level = "HIGH").length : ℚ) / (items.length : ℚ)
      { category := g.1
        risk_level :=
          if avg_risk > 0.3 then "HIGH"
          else if avg_risk > 0.1 then "MEDIUM"
          else "LOW"
        flagged_count := (items.filter fun i => i.military_indicators).length
        total_count := items.length }
    { categories := categories
      overall :=
        if categories.any fun c => c.risk_level = "HIGH" then "HIGH" else "MEDIUM" }

structure ComplianceInfo where
  total_technologies : Nat
  regulated : Nat
  flagged : Nat
  compliant : Nat
  compliance_rate : ℚ
deriving DecidableEq

/-- `EnhancedGeopoliticalAnalyzer._assess_compliance` (`flagged ≤ regulated`
holds, so the `Nat` subtraction agrees with Python's). -/
def _assess_compliance (classifications : List Classification) : ComplianceInfo :=
  let total := classifications.length
  let flagged := (classifications.filter fun c => c.risk_level = "HIGH").length
  let regulated := (classifications.filter fun c =>
    c.risk_level = "MEDIUM" ∨ c.risk_level = "HIGH").length
  { total_technologies := total
    regulated := regulated
    flagged := flagged
    compliant := regulated - flagged
    compliance_rate :=
      if regulated > 0 then ((regulated - flagged : Nat) : ℚ) / (regulated : ℚ) else 1 }

/-- `EnhancedGeopoliticalAnalyzer._extract_claims`. -/
def _extract_claims (data : List DataItem) : List String :=
  (data.map fun item =>
    (Pylib.sentencesOf item.text).filterMap fun sentence =>
      if (Pylib.splitWs sentence).length > 10 then some (Pylib.pyStrip sentence)
      else none).flatten

structure RatioInfo where
  military_percentage : ℚ
  civilian_percentage : ℚ
  assessment : String
deriving DecidableEq

/-- `EnhancedGeopoliticalAnalyzer._calculate_ratio`. -/
def _calculate_ratio (timeline : List YearAnalysis) : RatioInfo :=
  let total_military := (timeline.map (·.military_linked)).sum
  let total_civilian := (timeline.map (·.civilian_projects)).sum
  let total := total_military + total_civilian
  { military_percentage :=
      if total > 0 then (total_military : ℚ) / (total : ℚ) * 100 else 0
    civilian_percentage :=
      if total > 0 then (total_civilian : ℚ) / (total : ℚ) * 100 else 0
    assessment :=
      if total_military > total_civilian then "Military-focused" else "Civilian-focused" }

/-- `EnhancedGeopoliticalAnalyzer._calculate_overall_risk`: the division
`high_risk_count / total_categories` is unguarded in the source, so a risk
profile with no categories raises `ZeroDivisionError`. -/
def _calculate_overall_risk (risk_profile : RiskProfile) : Except String String :=
  let high_risk_count :=
    (risk_profile.categories.filter fun c => c.risk_level = "HIGH").length
  let total_categories := risk_profile.categories.length
  if total_categories = 0 then .error "ZeroDivisionError"
  else if (high_risk_count : ℚ) / (total_categories : ℚ) > 0.4 then .ok "HIGH"
  else if (high_risk_count : ℚ) / (total_categories : ℚ) > 0.2 then .ok "MEDIUM"
  else .ok "LOW"

structure AnalysisResult where
  country : String
  domain : String
  timeline : List YearAnalysis
  risk_profile : RiskProfile
  wassenaar_compliance : ComplianceInfo
  verified_developments : List VerificationResult
  military_civilian_ratio : RatioInfo
  overall_risk : String
deriving DecidableEq

/-- `EnhancedGeopoliticalAnalyzer.analyze_single_country` (the `await`s are
sequential calls; the result dict is built only if
`_calculate_overall_risk` returns — an exception there propagates). -/
def analyze_single_country (country domain : String) (data : List DataItem)
    (years : Nat) (currentYear : Nat) : Except String AnalysisResult :=
  let timeline := analyze_timeline data years currentYear
  let wassenaar_results := (data.map fun item => classify item.text).flatten
  let risk_profile := _generate_risk_profile wassenaar_results
  let claims := _extract_claims data
  let verified_claims := (claims.take 10).map fun claim => verify_claim claim data
  match _calculate_overall_risk risk_profile with
  | .error e => .error e
  | .ok overall =>
    .ok { country := country
          domain := domain
          timeline := timeline
          risk_profile := risk_profile
          wassenaar_compliance := _assess_compliance wassenaar_results
          verified_developments := verified_claims
          military_civilian_ratio := _calculate_ratio timeline
          overall_risk := overall }

end EnhancedV2

/-!
## Helper lemmas
-/

theorem Pylib.containsSub_nil_needle (hay : List Char) :
    Pylib.containsSub hay [] = true := by
  cases hay with
  | nil => rfl
  | cons c t => simp [Pylib.containsSub, List.isPrefixOf]

theorem Pylib.countOccAux_eq_zero (needle : List Char) (fuel : Nat) (hay : List Char)
    (h : Pylib.containsSub hay needle = false) :
    Pylib.countOccAux needle fuel hay = 0 := by
  induction fuel generalizing hay with
  | zero => cases hay <;> rfl
  | succ n ih =>
    cases hay with
    | nil => rfl
    | cons c t =>
      rw [Pylib.containsSub] at h
      simp only [Bool.or_eq_false_iff] at h
      rw [Pylib.countOccAux, if_neg (by simp [h.1])]
      exact ih t h.2

theorem Pylib.countOccAux_pos (needle : List Char) (fuel : Nat) (hay : List Char)
    (hne : needle ≠ []) (hfuel : hay.length ≤ fuel)
    (h : Pylib.containsSub hay needle = true) :
    1 ≤ Pylib.countOccAux needle fuel hay := by
  induction fuel generalizing hay with
  | zero =>
    have : hay = [] := List.length_eq_zero.mp (Nat.le_zero.mp hfuel)
    subst this
    rw [Pylib.containsSub] at h
    simp only [List.isEmpty_iff] at h
    exact absurd h hne
  | succ n ih =>
    cases hay with
    | nil =>
      rw [Pylib.containsSub] at h
      simp only [List.isEmpty_iff] at h
      exact absurd h hne
    | cons c t =>
      rw [Pylib.countOccAux]
      by_cases hp : needle.isPrefixOf (c :: t) = true
      · rw [if_pos hp]; omega
      · rw [if_neg hp]
        rw [Pylib.containsSub] at h
        simp only [Bool.or_eq_true] at h
        rcases h with h | h
        · exact absurd h hp
        · exact ih t (by simp at hfuel; omega) h

theorem Pylib.countOcc_eq_zero (hay needle : String)
    (h : Pylib.strContains hay needle = false) :
    Pylib.countOcc hay needle = 0 := by
  rw [Pylib.countOcc]
  rcases hne : needle.data.isEmpty with _ | _
  · rw [if_neg (by simp [hne])]
    exact Pylib.countOccAux_eq_zero _ _ _ h
  · exfalso
    rw [Pylib.strContains, List.isEmpty_iff.mp hne] at h
    rw [Pylib.containsSub_nil_needle] at h
    simp at h

theorem Pylib.countOcc_pos (hay needle : String)
    (h : Pylib.strContains hay needle = true) :
    1 ≤ Pylib.countOcc hay needle := by
  rw [Pylib.countOcc]
  rcases hne : needle.data.isEmpty with _ | _
  · rw [if_neg (by simp [hne])]
    exact Pylib.countOccAux_pos _ _ _ (by simpa using hne) le_rfl h
  · rw [if_pos (by simp [hne])]
    omega

theorem Pylib.roundHalfEven_nonneg (q : ℚ) (h : 0 ≤ q) :
    0 ≤ Pylib.roundHalfEven q := by
  have hf : (0:ℤ) ≤ ⌊q⌋ := Int.floor_nonneg.mpr h
  rw [Pylib.roundHalfEven]
  split_ifs <;> omega

theorem Pylib.roundHalfEven_le (q : ℚ) (n : ℤ) (h : q ≤ n) :
    Pylib.roundHalfEven q ≤ n := by
  have hf : ⌊q⌋ ≤ n := by
    calc ⌊q⌋ ≤ ⌊(n:ℚ)⌋ := Int.floor_le_floor h
    _ = n := Int.floor_intCast n
  rw [Pylib.roundHalfEven]
  split_ifs with h1 h2 h3
  · exact hf
  · -- q - ⌊q⌋ > 1/2, so ⌊q⌋ + 1/2 < q ≤ n and ⌊q⌋ < n in ℤ
    have : (⌊q⌋ : ℚ) + 1/2 < n := by
      have := Int.floor_le q
      linarith
    have : ⌊q⌋ < n := by exact_mod_cast lt_of_le_of_lt (by linarith : (⌊q⌋:ℚ) ≤ (⌊q⌋:ℚ) + 1/2) this |>.trans_le le_rfl
    omega
  · exact hf
  · -- q - ⌊q⌋ = 1/2 exactly
    have hhalf : (⌊q⌋ : ℚ) + 1/2 ≤ n := by
      have : ¬ (q - ⌊q⌋ < 1/2) := h1
      push_neg at this
      linarith
    have : ⌊q⌋ < n := by
      by_contra hcon
      push_neg at hcon
      have : (n:ℚ) ≤ ⌊q⌋ := by exact_mod_cast hcon
      linarith
    omega

theorem Pylib.round3_div_nat_bounds (a b : Nat) (hab : a ≤ b) (hb : 0 < b) :
    0 ≤ Pylib.round3 ((a:ℚ)/(b:ℚ)) ∧ Pylib.round3 ((a:ℚ)/(b:ℚ)) ≤ 1 := by
  have hbq : (0:ℚ) < (b:ℚ) := by exact_mod_cast hb
  have hq0 : 0 ≤ (a:ℚ)/(b:ℚ) := by positivity
  have hq1 : (a:ℚ)/(b:ℚ) ≤ 1 := by
    rw [div_le_one hbq]
    exact_mod_cast hab
  constructor
  · apply div_nonneg _ (by norm_num)
    exact_mod_cast Pylib.roundHalfEven_nonneg _ (by positivity)
  · rw [Pylib.round3, div_le_one (by norm_num)]
    have := Pylib.roundHalfEven_le ((a:ℚ)/(b:ℚ)*1000) 1000 (by nlinarith)
    exact_mod_cast this

/-!
## The claims
-/

/-- **C3.**  The sentence-embedding use is best-effort: when loading the
`SentenceTransformer` fails, `FactVerifier.__init__` catches the exception
and stores `model = None` instead of raising, and from then on
`score_claim_against_evidence` returns `{'score': 0.0, 'ranked_evidence': []}`
for every claim and every evidence list, without raising. -/
theorem fastVerifier_best_effort (e : String) (claim : String)
    (evidence_snippets : List String) :
    (FastVerifier.init (.error e)).model = none ∧
    FastVerifier.score_claim_against_evidence (FastVerifier.init (.error e))
        claim evidence_snippets =
      { score := 0, ranked_evidence := [] } :=
  ⟨rfl, rfl⟩

/-- **C7 counterexample.**  The claim that no operation leaves any change in
an on-disk store fails at a concrete input: one `upsert_item` call on the
initialised (empty) database yields a database state different from the one
it was given. -/
theorem db_upsert_changes_store :
    Db.upsert_item "wikipedia" "France" "AI" (some 2024)
      (Db.Json.obj [("x", Db.Json.num 1)]) Db.emptyDB ≠ Db.emptyDB := by
  intro h
  have := congrArg (fun db => db.items.length) h
  simp [Db.upsert_item, Db.emptyDB] at this

/-- **C7 amended.**  Not every operation leaves the on-disk store unchanged:
the `db` module persists — `upsert_item` appends exactly one row to the
`items` table (leaving `analyses` unchanged) and `save_analysis` replaces
the row keyed by `task_id` in the `analyses` table (leaving `items`
unchanged). -/
theorem db_store_mutation (source country domain : String) (year : Option Int)
    (data : Db.Json) (task_id : String) (status : Db.Json) (db : Db.DB) :
    (Db.upsert_item source country domain year data db).items =
      db.items ++
        [{ id := db.nextId, source := source, country := country,
           domain := domain, year := year, data_json := data }] ∧
    (Db.upsert_item source country domain year data db).analyses = db.analyses ∧
    (Db.save_analysis task_id status db).items = db.items ∧
    (Db.save_analysis task_id status db).analyses =
      db.analyses.filter (fun kv => kv.1 ≠ task_id) ++ [(task_id, status)] :=
  ⟨rfl, rfl, rfl, rfl⟩

/-- **C8.**  The item-store round trip is broken: after `upsert_item`
writes a row (the table then holds one matching row), `get_items` for the
same country and domain returns `[]` instead of a list containing the
written dict — the string subscript `r["data_json"]` on a tuple row raises
`TypeError`, the handler returns `[]`. -/
theorem db_roundtrip_broken :
    (Db.upsert_item "wikipedia" "France" "AI" (some 2024)
        (Db.Json.obj [("x", Db.Json.num 1)]) Db.emptyDB).items.length = 1 ∧
    Db.get_items "France" "AI" none
      (Db.upsert_item "wikipedia" "France" "AI" (some 2024)
        (Db.Json.obj [("x", Db.Json.num 1)]) Db.emptyDB) = [] :=
  ⟨rfl, rfl⟩

/-- **C9.**  `analyze_single_country` is not total: on data in which no
Wassenaar keyword occurs (here one item with text `"hello world"`), the risk
profile has no categories and `_calculate_overall_risk` divides by the
number of categories, raising `ZeroDivisionError`. -/
theorem enhanced_analyze_raises_on_keyword_free_data :
    EnhancedV2.analyze_single_country "France" "Artificial Intelligence"
      [{ text := "hello world" }] 5 2025 = .error "ZeroDivisionError" :=
  rfl

/-- **C10.**  For a non-empty classification list, the risk profile's
`overall` is `'HIGH'` exactly when some grouped category has risk level
`'HIGH'` and `'MEDIUM'` otherwise; it is never `'LOW'`.  `'LOW'` (with an
empty category list) arises only from the empty classification list. -/
theorem riskProfile_overall_never_low (classifications : List EnhancedV2.Classification)
    (h : classifications ≠ []) :
    ((EnhancedV2._generate_risk_profile classifications).overall =
      if (EnhancedV2._generate_risk_profile classifications).categories.any
          (fun c => c.risk_level = "HIGH")
      then "HIGH" else "MEDIUM") ∧
    (EnhancedV2._generate_risk_profile classifications).overall ≠ "LOW" ∧
    EnhancedV2._generate_risk_profile [] =
      { categories := [], overall := "LOW" } := by
  have hne : classifications.isEmpty = false := by
    cases classifications with
    | nil => exact absurd rfl h
    | cons a l => rfl
  have hov : (EnhancedV2._generate_risk_profile classifications).overall =
      if (EnhancedV2._generate_risk_profile classifications).categories.any
          (fun c => c.risk_level = "HIGH")
      then "HIGH" else "MEDIUM" := by
    simp only [EnhancedV2._generate_risk_profile, hne]
    rfl
  refine ⟨hov, ?_, rfl⟩
  rw [hov]
  split <;> decide

/-- **C10 witness.** -/
theorem riskProfile_overall_never_low_witness :
    ([({ category := "ML3", confidence := 1, risk_level := "HIGH",
         risk_score := 2, military_indicators := true })] :
      List EnhancedV2.Classification) ≠ [] ∧
    (EnhancedV2._generate_risk_profile
      [{ category := "ML3", confidence := 1, risk_level := "HIGH",
         risk_score := 2, military_indicators := true }]).overall ≠ "LOW" :=
  ⟨by simp,
   (riskProfile_overall_never_low
     [{ category := "ML3", confidence := 1, risk_level := "HIGH",
        risk_score := 2, military_indicators := true }] (by simp)).2.1⟩

/-- **C2.**  When the lower-cased domain contains no keyword of any of the
eight Wassenaar category tables, `analyze_dual_use` takes the
no-category-match branch and returns — for every country, data dict and time
range — the fixed dict with `risk_level 'LOW'`, `wassenaar_category
'Not classified'`, `compliance_status 'N/A'` and empty military and
civilian indicator lists, independent of the text content. -/
theorem dualUse_domain_not_classified (country domain : String)
    (data : DualUse.AnalysisData) (time_range : Option Nat) (currentYear : Nat)
    (h : ∀ p ∈ DualUse.wassenaar_categories, ∀ kw ∈ p.2.keywords,
        Pylib.strContains (Pylib.lower domain) kw = false) :
    DualUse.analyze_dual_use country domain data time_range currentYear =
      [ ("risk_level", .s "LOW"),
        ("wassenaar_category", .s "Not classified"),
        ("compliance_status", .s "N/A"),
        ("findings", .sl ["Domain not in dual-use categories"]),
        ("military_indicators", .il []),
        ("civilian_indicators", .sl []),
        ("recommendations", .sl ["Continue monitoring general technology development"]) ] := by
  have hid : DualUse._identify_wassenaar_category domain = none := by
    rw [DualUse._identify_wassenaar_category, Option.map_eq_none']
    rw [List.find?_eq_none]
    intro p hp
    simp only [List.any_eq_true, not_exists]
    intro kw
    rw [not_and]
    intro hkw
    simp [h p hp kw hkw]
  rw [DualUse.analyze_dual_use.eq_def, hid]

/-- **C2 witness.** -/
theorem dualUse_domain_not_classified_witness :
    (∀ p ∈ DualUse.wassenaar_categories, ∀ kw ∈ p.2.keywords,
        Pylib.strContains (Pylib.lower "Maritime Logistics") kw = false) ∧
    DualUse.analyze_dual_use "France" "Maritime Logistics"
        { raw_text := ["France launched a military satellite in 2023."] } none 2025 =
      [ ("risk_level", .s "LOW"),
        ("wassenaar_category", .s "Not classified"),
        ("compliance_status", .s "N/A"),
        ("findings", .sl ["Domain not in dual-use categories"]),
        ("military_indicators", .il []),
        ("civilian_indicators", .sl []),
        ("recommendations", .sl ["Continue monitoring general technology development"]) ] :=
  ⟨by decide,
   dualUse_domain_not_classified "France" "Maritime Logistics"
     { raw_text := ["France launched a military satellite in 2023."] } none 2025 (by decide)⟩

theorem contains_mhc_iff (r : String) :
    (["MODERATE", "HIGH", "CRITICAL"].contains r = true) ↔
      (r = "MODERATE" ∨ r = "HIGH" ∨ r = "CRITICAL") := by
  constructor
  · intro h
    rcases hq : (r == "MODERATE") with _ | _
    · rcases hq2 : (r == "HIGH") with _ | _
      · rcases hq3 : (r == "CRITICAL") with _ | _
        · exfalso
          rw [List.contains, List.elem] at h
          rw [hq] at h
          rw [List.elem, hq2, List.elem, hq3] at h
          simp at h
        · exact Or.inr (Or.inr (by simpa using hq3))
      · exact Or.inr (Or.inl (by simpa using hq2))
    · exact Or.inl (by simpa using hq)
  · intro h
    rcases h with h | h | h <;> subst h <;> rfl

/-- **C1.**  `_calculate_risk_level` returns `'CRITICAL'` iff at least two
military indicator records have severity `'HIGH'`; otherwise `'HIGH'` iff at
least 5 military indicators, or at least 3 with fewer than 3 civilian
indicators; otherwise `'MODERATE'` iff at least 2 military indicators, or at
least 1 with fewer than 5 civilian indicators; otherwise `'LOW'`.  And in
every `analyze_dual_use` result whose domain matched a Wassenaar category,
`monitoring_required` is true exactly when the returned `risk_level` is
`'MODERATE'`, `'HIGH'` or `'CRITICAL'`. -/
theorem dualUse_risk_level_and_monitoring
    (military_indicators : List DualUse.MilIndicator)
    (civilian_indicators : List String)
    (country domain : String) (data : DualUse.AnalysisData)
    (time_range : Option Nat) (currentYear : Nat)
    (hmatch : DualUse._identify_wassenaar_category domain ≠ none) :
    ((DualUse._calculate_risk_level military_indicators civilian_indicators = "CRITICAL" ↔
        2 ≤ (military_indicators.filter fun ind => ind.severity = "HIGH").length) ∧
     ((military_indicators.filter fun ind => ind.severity = "HIGH").length < 2 →
       (DualUse._calculate_risk_level military_indicators civilian_indicators = "HIGH" ↔
         (5 ≤ military_indicators.length ∨
           (3 ≤ military_indicators.length ∧ civilian_indicators.length < 3)))) ∧
     ((military_indicators.filter fun ind => ind.severity = "HIGH").length < 2 →
       ¬(5 ≤ military_indicators.length ∨
           (3 ≤ military_indicators.length ∧ civilian_indicators.length < 3)) →
       (DualUse._calculate_risk_level military_indicators civilian_indicators = "MODERATE" ↔
         (2 ≤ military_indicators.length ∨
           (1 ≤ military_indicators.length ∧ civilian_indicators.length < 5)))) ∧
     ((military_indicators.filter fun ind => ind.severity = "HIGH").length < 2 →
       ¬(5 ≤ military_indicators.length ∨
           (3 ≤ military_indicators.length ∧ civilian_indicators.length < 3)) →
       ¬(2 ≤ military_indicators.length ∨
           (1 ≤ military_indicators.length ∧ civilian_indicators.length < 5)) →
       DualUse._calculate_risk_level military_indicators civilian_indicators = "LOW")) ∧
    ((DualUse.analyze_dual_use country domain data time_range currentYear).lookup
        "monitoring_required" = some (.b true) ↔
      ((DualUse.analyze_dual_use country domain data time_range currentYear).lookup
          "risk_level" = some (.s "MODERATE") ∨
       (DualUse.analyze_dual_use country domain data time_range currentYear).lookup
          "risk_level" = some (.s "HIGH") ∨
       (DualUse.analyze_dual_use country domain data time_range currentYear).lookup
          "risk_level" = some (.s "CRITICAL"))) := by
  constructor
  · rw [DualUse._calculate_risk_level]
    split_ifs with h1 h2 h3
    · exact ⟨iff_of_true rfl h1,
        fun hlt => absurd h1 (by omega),
        fun hlt _ => absurd h1 (by omega),
        fun hlt _ _ => absurd h1 (by omega)⟩
    · exact ⟨iff_of_false (by decide) (by omega),
        fun _ => iff_of_true rfl h2,
        fun _ hna => absurd h2 hna,
        fun _ hna _ => absurd h2 hna⟩
    · exact ⟨iff_of_false (by decide) (by omega),
        fun _ => iff_of_false (by decide) h2,
        fun _ _ => iff_of_true rfl h3,
        fun _ _ hn => absurd h3 hn⟩
    · exact ⟨iff_of_false (by decide) (by omega),
        fun _ => iff_of_false (by decide) h2,
        fun _ _ => iff_of_false (by decide) h3,
        fun _ _ _ => rfl⟩
  · obtain ⟨cat, hcat⟩ : ∃ cat, DualUse._identify_wassenaar_category domain = some cat := by
      cases hh : DualUse._identify_wassenaar_category domain with
      | none => exact absurd hh hmatch
      | some c => exact ⟨c, rfl⟩
    rw [DualUse.analyze_dual_use.eq_def, hcat]
    simp only [List.lookup_cons, String.reduceBEq, beq_self_eq_true, cond_true, cond_false,
      Option.some.injEq, DualUse.DUVal.b.injEq, DualUse.DUVal.s.injEq]
    rw [contains_mhc_iff]

/-- **C1 witness.** -/
theorem dualUse_risk_level_and_monitoring_witness :
    DualUse._identify_wassenaar_category "robotics" ≠ none ∧
    DualUse._calculate_risk_level [] [] = "LOW" ∧
    ((DualUse.analyze_dual_use "France" "robotics" {} none 2025).lookup
        "monitoring_required" = some (.b true) ↔
      ((DualUse.analyze_dual_use "France" "robotics" {} none 2025).lookup
          "risk_level" = some (.s "MODERATE") ∨
       (DualUse.analyze_dual_use "France" "robotics" {} none 2025).lookup
          "risk_level" = some (.s "HIGH") ∨
       (DualUse.analyze_dual_use "France" "robotics" {} none 2025).lookup
          "risk_level" = some (.s "CRITICAL"))) :=
  ⟨by decide,
   (dualUse_risk_level_and_monitoring [] [] "France" "robotics" {} none 2025
      (by decide)).1.2.2.2 (by decide) (by decide) (by decide),
   (dualUse_risk_level_and_monitoring [] [] "France" "robotics" {} none 2025
      (by decide)).2⟩

set_option maxHeartbeats 2000000

/-- **C5.**  `_calculate_relevance_score` returns `0.0` whenever the
lower-cased text does not contain the lower-cased country name, and a score
in `(0, 10]` otherwise; and the recording step of `_fetch_and_validate_page`
appends a content/source/score triple only when the score is at least
`2.0` (every score in the output list is either an old one or `≥ 2`). -/
theorem fetcher_relevance_score_bounds (text country domain content url : String)
    (data : DataFetcher.FetchData) :
    (Pylib.strContains (Pylib.lower text) (Pylib.lower country) = false →
      DataFetcher._calculate_relevance_score text country domain = 0) ∧
    (Pylib.strContains (Pylib.lower text) (Pylib.lower country) = true →
      0 < DataFetcher._calculate_relevance_score text country domain ∧
      DataFetcher._calculate_relevance_score text country domain ≤ 10) ∧
    (∀ s ∈ (DataFetcher._fetch_and_validate_record content url country domain
        data).relevance_scores,
      s ∈ data.relevance_scores ∨ 2 ≤ s) := by
  refine ⟨?_, ?_, ?_⟩
  · intro hc
    have h0 := Pylib.countOcc_eq_zero (Pylib.lower text) (Pylib.lower country) hc
    simp only [DataFetcher._calculate_relevance_score]
    rw [if_pos h0]
  · intro hc
    have hm := Pylib.countOcc_pos (Pylib.lower text) (Pylib.lower country) hc
    have hAle : min (2 + ((Pylib.countOcc (Pylib.lower text) (Pylib.lower country) : ℚ)) * (1/10)) 3 ≤ 3 :=
      min_le_right _ _
    have hAge : (21/10 : ℚ) ≤
        min (2 + ((Pylib.countOcc (Pylib.lower text) (Pylib.lower country) : ℚ)) * (1/10)) 3 := by
      refine le_min ?_ (by norm_num)
      have : (1:ℚ) ≤ (Pylib.countOcc (Pylib.lower text) (Pylib.lower country) : ℚ) := by
        exact_mod_cast hm
      linarith
    have hBle : min (2 + (((Pylib.splitWs (Pylib.lower domain) ++
          DataFetcher._get_domain_synonyms domain).map fun term =>
            Pylib.countOcc (Pylib.lower text) (Pylib.lower term)).sum : ℚ) * (1/10)) 3 ≤ 3 :=
      min_le_right _ _
    have hBge : (0:ℚ) ≤ min (2 + (((Pylib.splitWs (Pylib.lower domain) ++
          DataFetcher._get_domain_synonyms domain).map fun term =>
            Pylib.countOcc (Pylib.lower text) (Pylib.lower term)).sum : ℚ) * (1/10)) 3 := by
      refine le_min ?_ (by norm_num)
      positivity
    have hCle : min (((DataFetcher.evidence_terms.filter fun term =>
          Pylib.strContains (Pylib.lower text) term).length : ℚ) * (2/10)) 2 ≤ 2 :=
      min_le_right _ _
    have hCge : (0:ℚ) ≤ min (((DataFetcher.evidence_terms.filter fun term =>
          Pylib.strContains (Pylib.lower text) term).length : ℚ) * (2/10)) 2 := by
      refine le_min ?_ (by norm_num)
      positivity
    simp only [DataFetcher._calculate_relevance_score]
    split_ifs with h0 h1 h2 h3 h4 <;>
      first
        | (exact absurd h0 (by omega))
        | (constructor <;> nlinarith [hAle, hAge, hBle, hBge, hCle, hCge])
  · intro s hs
    simp only [DataFetcher._fetch_and_validate_record] at hs
    split_ifs at hs with hlen hrel
    · exact Or.inl hs
    · simp only [List.mem_append, List.mem_singleton] at hs
      rcases hs with hs | hs
      · exact Or.inl hs
      · exact Or.inr (hs ▸ hrel)
    · exact Or.inl hs

/-- **C5 witness.** -/
theorem fetcher_relevance_score_bounds_witness :
    Pylib.strContains (Pylib.lower "no mention here") (Pylib.lower "France") = false ∧
    DataFetcher._calculate_relevance_score "no mention here" "France" "ai" = 0 ∧
    Pylib.strContains (Pylib.lower "france has ai") (Pylib.lower "France") = true ∧
    (0 < DataFetcher._calculate_relevance_score "france has ai" "France" "ai" ∧
      DataFetcher._calculate_relevance_score "france has ai" "France" "ai" ≤ 10) ∧
    ((5:ℚ) ∈ (DataFetcher._fetch_and_validate_record "short" "u" "x" "y"
        { relevance_scores := [5] }).relevance_scores →
      (5:ℚ) ∈ ({ relevance_scores := [5] } : DataFetcher.FetchData).relevance_scores ∨
        2 ≤ (5:ℚ)) :=
  ⟨by decide,
   (fetcher_relevance_score_bounds "no mention here" "France" "ai" "" "" {}).1 (by decide),
   by decide,
   (fetcher_relevance_score_bounds "france has ai" "France" "ai" "" "" {}).2.1 (by decide),
   fun hmem => (fetcher_relevance_score_bounds "x" "y" "ai" "short" "u"
     { relevance_scores := [5] }).2.2 5 hmem⟩

set_option maxHeartbeats 200000

theorem foldl_best_spec (x : String × Nat) (xs : List (String × Nat)) :
    (xs.foldl (fun (acc y : String × Nat) => if y.2 > acc.2 then y else acc) x = x ∨
     xs.foldl (fun (acc y : String × Nat) => if y.2 > acc.2 then y else acc) x ∈ xs) ∧
    x.2 ≤ (xs.foldl (fun (acc y : String × Nat) => if y.2 > acc.2 then y else acc) x).2 ∧
    ∀ y ∈ xs, y.2 ≤ (xs.foldl (fun (acc y : String × Nat) => if y.2 > acc.2 then y else acc) x).2 := by
  induction xs generalizing x with
  | nil => simp
  | cons z zs ih =>
    simp only [List.foldl_cons]
    rcases ih (if z.2 > x.2 then z else x) with ⟨hmem, hle, hall⟩
    refine ⟨?_, ?_, ?_⟩
    · rcases hmem with h | h
      · rw [h]
        split_ifs with hz
        · exact Or.inr (List.mem_cons_self _ _)
        · exact Or.inl rfl
      · exact Or.inr (List.mem_cons_of_mem _ h)
    · refine le_trans ?_ hle
      split_ifs with hz <;> omega
    · intro y hy
      rcases List.mem_cons.mp hy with h | h
      · subst h
        refine le_trans ?_ hle
        split_ifs with hz <;> omega
      · exact hall y h

theorem le_foldr_max (l : List Nat) (a : Nat) (h : a ∈ l) : a ≤ l.foldr max 0 := by
  induction l with
  | nil => simp at h
  | cons b bs ih =>
    rcases List.mem_cons.mp h with h | h
    · subst h; simp [List.foldr_cons]
    · have := ih h
      simp only [List.foldr_cons]
      omega

theorem foldr_max_le_of_forall (l : List Nat) (B : Nat) (h : ∀ a ∈ l, a ≤ B) :
    l.foldr max 0 ≤ B := by
  induction l with
  | nil => simp
  | cons b bs ih =>
    have hb := h b (List.mem_cons_self _ _)
    have hr := ih (fun a ha => h a (List.mem_cons_of_mem _ ha))
    simp only [List.foldr_cons]
    omega

/-- **C6 counterexample.**  For the article `{'title': 'soldier law funding'}`
the five scores are 2, 2, 2, 0, 0 (best 2, total 6), and the returned
confidence is `0.333`, which differs from the exact quotient `2/6` the claim
states — `classify_article` rounds the quotient to three decimal places. -/
theorem newsClassifier_confidence_not_exact_quotient :
    (NewsClassifier.classify_article { title := "soldier law funding" }).scores =
      [("military", 2), ("policy", 2), ("industry", 2),
       ("research", 0), ("export_control", 0)] ∧
    NewsClassifier.bestScore
      [("military", 2), ("policy", 2), ("industry", 2),
       ("research", 0), ("export_control", 0)] = 2 ∧
    NewsClassifier.totalScore
      [("military", 2), ("policy", 2), ("industry", 2),
       ("research", 0), ("export_control", 0)] = 6 ∧
    (NewsClassifier.classify_article { title := "soldier law funding" }).confidence =
      333/1000 ∧
    ((333:ℚ)/1000) ≠ (2:ℚ)/6 := by
  refine ⟨by decide, by decide, by decide, ?_, by norm_num⟩
  have h : (NewsClassifier.classify_article { title := "soldier law funding" }).confidence =
      Pylib.round3 (((2:Nat):ℚ)/((6:Nat):ℚ)) := rfl
  rw [h]
  norm_num [Pylib.round3, Pylib.roundHalfEven, Int.floor_eq_iff]

/-- **C6 amended.**  `classify_article` returns category `'other'` exactly
when every category's keyword score is 0; otherwise it returns a category
whose score is maximal among the five tables; and the returned confidence is
the best score divided by the sum of all scores (divisor 1 when the sum is
0), **rounded to three decimal places**, and always lies in `[0, 1]`. -/
theorem newsClassifier_classify_spec (article : NewsClassifier.Article) :
    ((NewsClassifier.classify_article article).category = "other" ↔
      ∀ p ∈ (NewsClassifier.classify_article article).scores, p.2 = 0) ∧
    ((NewsClassifier.classify_article article).category ≠ "other" →
      ∃ p ∈ (NewsClassifier.classify_article article).scores,
        p.1 = (NewsClassifier.classify_article article).category ∧
        p.2 = NewsClassifier.bestScore (NewsClassifier.classify_article article).scores) ∧
    (NewsClassifier.classify_article article).confidence =
      Pylib.round3 ((NewsClassifier.bestScore (NewsClassifier.classify_article article).scores : ℚ) /
        ((if NewsClassifier.totalScore (NewsClassifier.classify_article article).scores = 0 then 1
          else NewsClassifier.totalScore (NewsClassifier.classify_article article).scores : Nat) : ℚ)) ∧
    0 ≤ (NewsClassifier.classify_article article).confidence ∧
    (NewsClassifier.classify_article article).confidence ≤ 1 := by
  obtain ⟨s1, s2, s3, s4, s5, hs, hcat, hconf⟩ : ∃ s1 s2 s3 s4 s5,
      (NewsClassifier.classify_article article).scores =
        [("military", s1), ("policy", s2), ("industry", s3),
         ("research", s4), ("export_control", s5)] ∧
      (NewsClassifier.classify_article article).category =
        (if ([("policy", s2), ("industry", s3), ("research", s4),
              ("export_control", s5)].foldl
            (fun (acc y : String × Nat) => if y.2 > acc.2 then y else acc)
            ("military", s1)).2 > 0
         then ([("policy", s2), ("industry", s3), ("research", s4),
              ("export_control", s5)].foldl
            (fun (acc y : String × Nat) => if y.2 > acc.2 then y else acc)
            ("military", s1)).1
         else "other") ∧
      (NewsClassifier.classify_article article).confidence =
        Pylib.round3
          (((([("policy", s2), ("industry", s3), ("research", s4),
              ("export_control", s5)].foldl
              (fun (acc y : String × Nat) => if y.2 > acc.2 then y else acc)
              ("military", s1)).2 : Nat) : ℚ) /
            (((if [("military", s1), ("policy", s2), ("industry", s3),
                  ("research", s4), ("export_control", s5)].foldl
                  (fun a s => a + s.2) 0 = 0
               then 1
               else [("military", s1), ("policy", s2), ("industry", s3),
                  ("research", s4), ("export_control", s5)].foldl
                  (fun a s => a + s.2) 0) : Nat) : ℚ)) :=
    ⟨_, _, _, _, _, rfl, rfl, rfl⟩
  obtain ⟨hmem, hle, hall⟩ := foldl_best_spec ("military", s1)
    [("policy", s2), ("industry", s3), ("research", s4), ("export_control", s5)]
  set B := [("policy", s2), ("industry", s3), ("research", s4),
      ("export_control", s5)].foldl
    (fun (acc y : String × Nat) => if y.2 > acc.2 then y else acc)
    ("military", s1) with hB
  have hs1 : s1 ≤ B.2 := hle
  have hs2 : s2 ≤ B.2 := hall ("policy", s2) (by simp)
  have hs3 : s3 ≤ B.2 := hall ("industry", s3) (by simp)
  have hs4 : s4 ≤ B.2 := hall ("research", s4) (by simp)
  have hs5 : s5 ≤ B.2 := hall ("export_control", s5) (by simp)
  have hBval : B.2 = s1 ∨ B.2 = s2 ∨ B.2 = s3 ∨ B.2 = s4 ∨ B.2 = s5 := by
    rcases hmem with h | h
    · rw [h]; exact Or.inl rfl
    · simp only [List.mem_cons, List.not_mem_nil, or_false] at h
      rcases h with h | h | h | h <;> rw [h] <;> simp
  have hBone : B.1 = "military" ∨ B.1 = "policy" ∨ B.1 = "industry" ∨
      B.1 = "research" ∨ B.1 = "export_control" := by
    rcases hmem with h | h
    · rw [h]; exact Or.inl rfl
    · simp only [List.mem_cons, List.not_mem_nil, or_false] at h
      rcases h with h | h | h | h <;> rw [h] <;> simp
  have hbest : B.2 = NewsClassifier.bestScore [("military", s1), ("policy", s2), ("industry", s3),
      ("research", s4), ("export_control", s5)] := by
    apply le_antisymm
    · apply le_foldr_max
      simp only [List.map_cons, List.map_nil, List.mem_cons, List.not_mem_nil, or_false]
      tauto
    · apply foldr_max_le_of_forall
      intro a ha
      simp only [List.map_cons, List.map_nil, List.mem_cons,
        List.not_mem_nil, or_false] at ha
      rcases ha with h | h | h | h | h <;> omega
  have htot : [("military", s1), ("policy", s2), ("industry", s3),
      ("research", s4), ("export_control", s5)].foldl (fun a s => a + s.2) 0 =
      NewsClassifier.totalScore [("military", s1), ("policy", s2), ("industry", s3),
      ("research", s4), ("export_control", s5)] := by
    simp [NewsClassifier.totalScore]
    omega
  have hBtot : B.2 ≤ NewsClassifier.totalScore [("military", s1), ("policy", s2), ("industry", s3),
      ("research", s4), ("export_control", s5)] := by
    simp only [NewsClassifier.totalScore, List.map_cons, List.map_nil, List.sum_cons, List.sum_nil]
    omega
  refine ⟨?_, ?_, ?_, ?_, ?_⟩
  · rw [hcat, hs]
    constructor
    · intro h
      by_cases hpos : B.2 > 0
      · rw [if_pos hpos] at h
        exfalso
        rcases hBone with h1 | h1 | h1 | h1 | h1 <;> rw [h1] at h <;> exact absurd h (by decide)
      · intro p hp
        simp only [List.mem_cons, List.not_mem_nil, or_false] at hp
        rcases hp with hp | hp | hp | hp | hp <;> subst hp <;> dsimp only <;> omega
    · intro h
      have h1 := h ("military", s1) (by simp)
      have h2 := h ("policy", s2) (by simp)
      have h3 := h ("industry", s3) (by simp)
      have h4 := h ("research", s4) (by simp)
      have h5 := h ("export_control", s5) (by simp)
      dsimp only at h1 h2 h3 h4 h5
      rw [if_neg (by omega)]
  · intro h
    rw [hcat] at h
    by_cases hpos : B.2 > 0
    · refine ⟨B, ?_, ?_, ?_⟩
      · rw [hs]
        rcases hmem with hh | hh
        · rw [hh]; simp
        · exact List.mem_cons_of_mem _ hh
      · rw [hcat, if_pos hpos]
      · rw [hs]; exact hbest
    · rw [if_neg hpos] at h
      exact absurd rfl h
  · rw [hconf, hs, htot, hbest]
  · rw [hconf]
    by_cases htz : [("military", s1), ("policy", s2), ("industry", s3),
        ("research", s4), ("export_control", s5)].foldl (fun a s => a + s.2) 0 = 0
    · rw [if_pos htz]
      have hB0 : B.2 = 0 := by
        simp only [List.foldl_cons, List.foldl_nil] at htz
        omega
      rw [hB0]
      exact (Pylib.round3_div_nat_bounds 0 1 (by omega) (by omega)).1
    · rw [if_neg htz]
      have hpos : 0 < [("military", s1), ("policy", s2), ("industry", s3),
          ("research", s4), ("export_control", s5)].foldl (fun a s => a + s.2) 0 :=
        Nat.pos_of_ne_zero htz
      have hle' : B.2 ≤ [("military", s1), ("policy", s2), ("industry", s3),
          ("research", s4), ("export_control", s5)].foldl (fun a s => a + s.2) 0 := by
        rw [htot]; exact hBtot
      exact (Pylib.round3_div_nat_bounds B.2 _ hle' hpos).1
  · rw [hconf]
    by_cases htz : [("military", s1), ("policy", s2), ("industry", s3),
        ("research", s4), ("export_control", s5)].foldl (fun a s => a + s.2) 0 = 0
    · rw [if_pos htz]
      have hB0 : B.2 = 0 := by
        simp only [List.foldl_cons, List.foldl_nil] at htz
        omega
      rw [hB0]
      exact (Pylib.round3_div_nat_bounds 0 1 (by omega) (by omega)).2
    · rw [if_neg htz]
      have hpos : 0 < [("military", s1), ("policy", s2), ("industry", s3),
          ("research", s4), ("export_control", s5)].foldl (fun a s => a + s.2) 0 :=
        Nat.pos_of_ne_zero htz
      have hle' : B.2 ≤ [("military", s1), ("policy", s2), ("industry", s3),
          ("research", s4), ("export_control", s5)].foldl (fun a s => a + s.2) 0 := by
        rw [htot]; exact hBtot
      exact (Pylib.round3_div_nat_bounds B.2 _ hle' hpos).2

/-- **C6 amended witness.** -/
theorem newsClassifier_classify_spec_witness :
    (NewsClassifier.classify_article { title := "soldier" }).category ≠ "other" ∧
    (∃ p ∈ (NewsClassifier.classify_article { title := "soldier" }).scores,
      p.1 = (NewsClassifier.classify_article { title := "soldier" }).category ∧
      p.2 = NewsClassifier.bestScore
        (NewsClassifier.classify_article { title := "soldier" }).scores) :=
  ⟨by decide,
   (newsClassifier_classify_spec { title := "soldier" }).2.1 (by decide)⟩

theorem confidence_of_warnings (ws : List String) :
    ((if ws = [] then "high" else if ws.length ≤ 2 then "medium" else "low") = "high" ∨
     (if ws = [] then "high" else if ws.length ≤ 2 then "medium" else "low") = "medium" ∨
     (if ws = [] then "high" else if ws.length ≤ 2 then "medium" else "low") = "low") ∧
    ((if ws = [] then "high" else if ws.length ≤ 2 then "medium" else "low") = "high" ↔
      ws = []) ∧
    ((if ws = [] then "high" else if ws.length ≤ 2 then "medium" else "low") = "medium" ↔
      (ws ≠ [] ∧ ws.length ≤ 2)) ∧
    ((if ws = [] then "high" else if ws.length ≤ 2 then "medium" else "low") = "low" ↔
      ws.length > 2) := by
  split_ifs with h1 h2
  · exact ⟨Or.inl rfl, iff_of_true rfl h1,
      iff_of_false (by decide) (fun hp => hp.1 h1),
      iff_of_false (by decide) (by simp [h1])⟩
  · exact ⟨Or.inr (Or.inl rfl), iff_of_false (by decide) h1,
      iff_of_true rfl ⟨h1, h2⟩,
      iff_of_false (by decide) (by omega)⟩
  · exact ⟨Or.inr (Or.inr rfl), iff_of_false (by decide) h1,
      iff_of_false (by decide) (fun hp => h2 hp.2),
      iff_of_true rfl (by omega)⟩

/-- **C4.**  For distinct country names, the report assembled by
`analyze_and_compare` (its assembly and `_add_quality_assessment`, with the
per-country analyses and generated prose universally quantified) has exactly
the keys `summary`, `concrete_metrics`, `comparison`, `overall_analysis`,
`resources`, `news`, `data_quality`; `summary` and `concrete_metrics` map
both country names to that country's analysis; and `data_quality` carries a
confidence in `{high, medium, low}` — `high` iff no warnings, `medium` iff
1-2 warnings, `low` otherwise. -/
theorem analyzer_report_shape (country1 country2 : String) (h : country1 ≠ country2)
    (analysis1 analysis2 : DataAnalyzer.CountryAnalysis)
    (comparison : List (String × String)) (overall : String)
    (country1_data country2_data : DataFetcher.FetchData) :
    ((DataAnalyzer.analyze_and_compare_result country1 country2 analysis1 analysis2
        comparison overall country1_data country2_data).map (·.1) =
      ["summary", "concrete_metrics", "comparison", "overall_analysis",
       "resources", "news", "data_quality"]) ∧
    (∃ d, (DataAnalyzer.analyze_and_compare_result country1 country2 analysis1 analysis2
        comparison overall country1_data country2_data).lookup "summary" =
          some (.strDict d) ∧
      d.lookup country1 = some analysis1.summary ∧
      d.lookup country2 = some analysis2.summary) ∧
    (∃ d, (DataAnalyzer.analyze_and_compare_result country1 country2 analysis1 analysis2
        comparison overall country1_data country2_data).lookup "concrete_metrics" =
          some (.metricsDict d) ∧
      d.lookup country1 = some analysis1.concrete_metrics ∧
      d.lookup country2 = some analysis2.concrete_metrics) ∧
    (∃ q, (DataAnalyzer.analyze_and_compare_result country1 country2 analysis1 analysis2
        comparison overall country1_data country2_data).lookup "data_quality" =
          some (.quality q) ∧
      (q.confidence = "high" ∨ q.confidence = "medium" ∨ q.confidence = "low") ∧
      (q.confidence = "high" ↔ q.warnings = []) ∧
      (q.confidence = "medium" ↔ (q.warnings ≠ [] ∧ q.warnings.length ≤ 2)) ∧
      (q.confidence = "low" ↔ q.warnings.length > 2)) := by
  have hne : (country2 == country1) = false := beq_eq_false_iff_ne.mpr (Ne.symm h)
  refine ⟨rfl, ?_, ?_, ?_⟩
  · refine ⟨[(country1, analysis1.summary), (country2, analysis2.summary)], rfl, ?_, ?_⟩
    · simp [List.lookup]
    · simp [List.lookup, hne]
  · refine ⟨[(country1, analysis1.concrete_metrics), (country2, analysis2.concrete_metrics)],
      rfl, ?_, ?_⟩
    · simp [List.lookup]
    · simp [List.lookup, hne]
  · exact ⟨_, rfl, confidence_of_warnings _⟩

/-- **C4 witness.** -/
theorem analyzer_report_shape_witness :
    ("France" : String) ≠ "Germany" ∧
    ((DataAnalyzer.analyze_and_compare_result "France" "Germany"
        { summary := "a", concrete_metrics := {}, key_entities := [], highlights := [] }
        { summary := "b", concrete_metrics := {}, key_entities := [], highlights := [] }
        [] "" {} {}).map (·.1) =
      ["summary", "concrete_metrics", "comparison", "overall_analysis",
       "resources", "news", "data_quality"]) :=
  ⟨by decide,
   (analyzer_report_shape "France" "Germany" (by decide)
     { summary := "a", concrete_metrics := {}, key_entities := [], highlights := [] }
     { summary := "b", concrete_metrics := {}, key_entities := [], highlights := [] }
     [] "" {} {}).1⟩
